import Mathlib

/-! Shallow embedding of the fault-tolerance and monitoring core of the
financial-ai-agent repository (src/infrastructure/fault_tolerance.py and
src/infrastructure/monitoring.py).  Python floats are modelled as rationals,
wall-clock time is an explicit parameter (the value time.time() would return),
exceptions are Except values, and each Python class is a Lean structure with
its methods as functions on that structure.  The operation a wrapper guards is
modelled by the result it would produce when invoked. -/

/-- Python exception values, identified by their message. -/
abbrev PyErr := String

/-- Python values that the fallback handler can cache: enough of the dynamic
value space to distinguish truthy from falsy values. -/
inductive PyValue where
  | none
  | bool (b : Bool)
  | int (n : ℤ)
  | str (s : String)
  | dict (entries : List (String × ℤ))
deriving DecidableEq, Repr

/-- Python truthiness of a value, as tested by `if cached:`. -/
def PyValue.truthy : PyValue → Bool
  | .none => false
  | .bool b => b
  | .int n => n != 0
  | .str s => s != ""
  | .dict es => !es.isEmpty

/-! ## CircuitBreaker (fault_tolerance.py lines 14-130) -/

/-- States of a circuit breaker (CircuitBreakerState). -/
inductive CircuitBreakerState where
  | closed
  | open_
  | half_open
deriving DecidableEq, Repr

/-- CircuitBreakerConfig; expected_exception models the tuple of exception
classes as the predicate "this error is an instance of one of them". -/
structure CircuitBreakerConfig where
  failure_threshold : ℕ := 5
  recovery_timeout : ℚ := 60
  expected_exception : PyErr → Bool := fun _ => true
  success_threshold : ℕ := 3

/-- CircuitBreakerMetrics. -/
structure CircuitBreakerMetrics where
  total_calls : ℕ := 0
  successful_calls : ℕ := 0
  failed_calls : ℕ := 0
  consecutive_failures : ℕ := 0
  consecutive_successes : ℕ := 0
  last_failure_time : Option ℚ := none
  last_success_time : Option ℚ := none
deriving DecidableEq, Repr

/-- A CircuitBreaker object. -/
structure CircuitBreaker where
  name : String
  config : CircuitBreakerConfig
  state : CircuitBreakerState
  metrics : CircuitBreakerMetrics

/-- CircuitBreaker.__init__: state CLOSED, fresh metrics. -/
def initBreaker (name : String) (config : CircuitBreakerConfig) : CircuitBreaker :=
  { name := name, config := config, state := .closed, metrics := {} }

/-- CircuitBreaker._record_success (lines 85-96), with `now` the value
time.time() returns. -/
def record_success (b : CircuitBreaker) (now : ℚ) : CircuitBreaker :=
  let m := { b.metrics with
    successful_calls := b.metrics.successful_calls + 1
    consecutive_successes := b.metrics.consecutive_successes + 1
    consecutive_failures := 0
    last_success_time := some now }
  if b.state = CircuitBreakerState.half_open ∧
      m.consecutive_successes ≥ b.config.success_threshold then
    { b with state := .closed, metrics := { m with consecutive_successes := 0 } }
  else
    { b with metrics := m }

/-- CircuitBreaker._record_failure (lines 98-111). -/
def record_failure (b : CircuitBreaker) (now : ℚ) : CircuitBreaker :=
  let m := { b.metrics with
    failed_calls := b.metrics.failed_calls + 1
    consecutive_failures := b.metrics.consecutive_failures + 1
    consecutive_successes := 0
    last_failure_time := some now }
  if b.state = CircuitBreakerState.half_open then
    { b with state := .open_, metrics := m }
  else if b.state = CircuitBreakerState.closed ∧
      m.consecutive_failures ≥ b.config.failure_threshold then
    { b with state := .open_, metrics := m }
  else
    { b with metrics := m }

/-- CircuitBreaker._should_attempt_reset (lines 78-83). -/
def should_attempt_reset (b : CircuitBreaker) (now : ℚ) : Bool :=
  match b.metrics.last_failure_time with
  | Option.none => true
  | some t => decide (now - t ≥ b.config.recovery_timeout)

/-- What the OPEN-state guard at the top of CircuitBreaker.call (lines 60-65)
decides: reject with CircuitBreakerOpenException, or proceed with the breaker
(moved to HALF_OPEN when the recovery timeout has elapsed). -/
inductive GateResult where
  | reject
  | proceed (b : CircuitBreaker)

/-- The OPEN-state guard at the top of CircuitBreaker.call (lines 60-65). -/
def gate (b : CircuitBreaker) (now : ℚ) : GateResult :=
  if b.state = CircuitBreakerState.open_ then
    if should_attempt_reset b now then
      GateResult.proceed { b with state := .half_open }
    else GateResult.reject
  else GateResult.proceed b

/-- How a wrapped call ends: the operation's value is returned, an exception
is raised to the caller, or a CircuitBreakerOpenException rejects the call. -/
inductive CallOutcome where
  | ok (v : PyValue)
  | raised (e : PyErr)
  | breakerOpen
deriving DecidableEq, Repr

/-- The observable effect of one CircuitBreaker.call: the outcome seen by the
caller, the breaker afterwards, and how many times the operation ran. -/
structure CallResult where
  outcome : CallOutcome
  breaker : CircuitBreaker
  invocations : ℕ

/-- CircuitBreaker.call (lines 58-76).  `opResult` is what invoking the
operation would produce; an error the config's expected_exception does not
match propagates without being recorded as success or failure. -/
def call (b : CircuitBreaker) (now : ℚ) (opResult : Except PyErr PyValue) : CallResult :=
  match gate b now with
  | .reject => { outcome := .breakerOpen, breaker := b, invocations := 0 }
  | .proceed b1 =>
    let b2 := { b1 with metrics :=
      { b1.metrics with total_calls := b1.metrics.total_calls + 1 } }
    match opResult with
    | .ok v => { outcome := .ok v, breaker := record_success b2 now, invocations := 1 }
    | .error e =>
      if b2.config.expected_exception e then
        { outcome := .raised e, breaker := record_failure b2 now, invocations := 1 }
      else
        { outcome := .raised e, breaker := b2, invocations := 1 }

/-- A sequence of CircuitBreaker.call invocations, each with its wall-clock
time and the result the operation would produce. -/
def runCalls (b : CircuitBreaker) : List (ℚ × Except PyErr PyValue) → CircuitBreaker
  | [] => b
  | (now, res) :: rest => runCalls (call b now res).breaker rest

/-- A counted outcome: a call that ended in _record_success or in
_record_failure. -/
inductive Outcome where
  | success
  | failure
deriving DecidableEq, Repr

/-- Recording one counted outcome on the breaker. -/
def record_outcome (b : CircuitBreaker) (o : Outcome) (now : ℚ) : CircuitBreaker :=
  match o with
  | .success => record_success b now
  | .failure => record_failure b now

/-- A stream of counted outcomes applied in order. -/
def runOutcomes (b : CircuitBreaker) : List (Outcome × ℚ) → CircuitBreaker
  | [] => b
  | (o, t) :: rest => runOutcomes (record_outcome b o t) rest

/-- The transition table of spec section 4.1, as a relation between a breaker,
a counted outcome, and the breaker after recording it.  Written from the
spec's words, to be compared with the recording functions of the code:
CLOSED goes to OPEN exactly when consecutive_failures reaches
failure_threshold after a failure; HALF_OPEN goes to CLOSED exactly when
consecutive_successes reaches success_threshold; HALF_OPEN goes to OPEN on
any single failure; a success in CLOSED resets consecutive_failures and
leaves the state CLOSED. -/
def followsTransitionTable (b : CircuitBreaker) (o : Outcome) (b' : CircuitBreaker) : Prop :=
  (b.state = CircuitBreakerState.closed → o = Outcome.failure →
    (b'.state = CircuitBreakerState.open_ ↔
      b.metrics.consecutive_failures + 1 ≥ b.config.failure_threshold)) ∧
  (b.state = CircuitBreakerState.half_open → o = Outcome.success →
    (b'.state = CircuitBreakerState.closed ↔
      b.metrics.consecutive_successes + 1 ≥ b.config.success_threshold)) ∧
  (b.state = CircuitBreakerState.half_open → o = Outcome.failure →
    b'.state = CircuitBreakerState.open_) ∧
  (b.state = CircuitBreakerState.closed → o = Outcome.success →
    b'.state = CircuitBreakerState.closed ∧ b'.metrics.consecutive_failures = 0)

/-! ## RetryMechanism (fault_tolerance.py lines 133-186) -/

/-- RetryConfig; retry_on models the tuple of retryable exception classes as
a predicate. -/
structure RetryConfig where
  max_attempts : ℕ := 3
  initial_delay : ℚ := 1
  backoff_factor : ℚ := 2
  max_delay : ℚ := 60
  jitter : Bool := true
  retry_on : PyErr → Bool := fun _ => true

/-- How execute_with_retry ends: a value returned, an exception raised, or
the degenerate `raise None` when max_attempts is 0 and the loop never ran. -/
inductive RetryResult where
  | ok (v : PyValue)
  | raised (e : PyErr)
  | raisedNone
deriving DecidableEq, Repr

/-- The retry loop of RetryMechanism.execute_with_retry (lines 157-174),
by recursion on the remaining attempts; `op` gives the result the operation
produces on each attempt (numbered from 0).  Returns the outcome and the
number of invocations: an error the retry_on predicate does not match
propagates immediately, a matched error on the last attempt is re-raised
after the loop. -/
def retryAux (retryOn : PyErr → Bool) (op : ℕ → Except PyErr PyValue) :
    ℕ → ℕ → RetryResult × ℕ
  | _, 0 => (RetryResult.raisedNone, 0)
  | attempt, remaining + 1 =>
    match op attempt with
    | .ok v => (RetryResult.ok v, 1)
    | .error e =>
      if retryOn e then
        if remaining = 0 then (RetryResult.raised e, 1)
        else
          let rest := retryAux retryOn op (attempt + 1) remaining
          (rest.1, rest.2 + 1)
      else (RetryResult.raised e, 1)

/-- RetryMechanism.execute_with_retry (lines 157-174). -/
def execute_with_retry (cfg : RetryConfig) (op : ℕ → Except PyErr PyValue) :
    RetryResult × ℕ :=
  retryAux cfg.retry_on op 0 cfg.max_attempts

/-- RetryMechanism._calculate_delay (lines 176-186); `jitterSample` is the
value random.uniform(-jitter_range, jitter_range) would return. -/
def calculate_delay (cfg : RetryConfig) (attempt : ℕ) (jitterSample : ℚ) : ℚ :=
  let delay := cfg.initial_delay * cfg.backoff_factor ^ attempt
  let delay := min delay cfg.max_delay
  let delay := if cfg.jitter then delay + jitterSample else delay
  max 0 delay

/-- The nominal (jitter-free) delay: min(initial_delay * backoff_factor ^
attempt, max_delay), the value whose ±25% band the jitter stays in. -/
def nominal_delay (cfg : RetryConfig) (attempt : ℕ) : ℚ :=
  min (cfg.initial_delay * cfg.backoff_factor ^ attempt) cfg.max_delay

/-! ## FallbackHandler (fault_tolerance.py lines 189-252) -/

/-- FallbackConfig. -/
structure FallbackConfig where
  enabled : Bool := true
  cache_ttl : ℚ := 300

/-- One cache entry: {"data": result, "timestamp": time.time()}. -/
structure CacheEntry where
  data : PyValue
  timestamp : ℚ
deriving DecidableEq, Repr

/-- The handler's cache dict, as an association list. -/
abbrev Cache := List (String × CacheEntry)

/-- Dict lookup. -/
def lookupCache : Cache → String → Option CacheEntry
  | [], _ => Option.none
  | (k, e) :: rest, key => if k = key then some e else lookupCache rest key

/-- Dict deletion (del self.cache[key]). -/
def eraseCache : Cache → String → Cache
  | [], _ => []
  | (k, e) :: rest, key =>
    if k = key then eraseCache rest key else (k, e) :: eraseCache rest key

/-- FallbackHandler._cache_result (lines 235-240). -/
def cache_result (now : ℚ) (c : Cache) (key : String) (result : PyValue) : Cache :=
  (key, { data := result, timestamp := now }) :: eraseCache c key

/-- FallbackHandler._get_cached_result (lines 242-252): returns the data if
present and not expired; an expired entry is deleted and treated as a miss. -/
def get_cached_result (cfg : FallbackConfig) (now : ℚ) (c : Cache) (key : String) :
    Option PyValue × Cache :=
  match lookupCache c key with
  | Option.none => (Option.none, c)
  | some cached =>
    if now - cached.timestamp > cfg.cache_ttl then (Option.none, eraseCache c key)
    else (some cached.data, c)

/-- The guard `if cache_key and self.config.enabled` followed by
self._cache_result(cache_key, result): caches only under a truthy key with
caching enabled. -/
def maybe_cache (cfg : FallbackConfig) (cacheKey : Option String) (now : ℚ)
    (c : Cache) (result : PyValue) : Cache :=
  match cacheKey with
  | some k => if (k != "") && cfg.enabled then cache_result now c k result else c
  | Option.none => c

/-- The observable effect of one invocation of the wrapper that
FallbackHandler.with_fallback returns. -/
structure FallbackCallResult where
  result : Except PyErr PyValue
  cache : Cache
  fallbackInvoked : Bool

/-- FallbackHandler.with_fallback's wrapper (lines 203-233).  `primaryRes`
and `fallbackRes` are what invoking the primary and the fallback operation
would produce; `fallbackInvoked` records whether the fallback ran.  On
primary failure the cached value is served only when `if cached:` holds,
that is, when the looked-up value is truthy. -/
def with_fallback (cfg : FallbackConfig) (cacheKey : Option String)
    (primaryRes fallbackRes : Except PyErr PyValue) (c : Cache) (now : ℚ) :
    FallbackCallResult :=
  match primaryRes with
  | .ok result =>
    { result := .ok result, cache := maybe_cache cfg cacheKey now c result,
      fallbackInvoked := false }
  | .error _ =>
    let looked : Option PyValue × Cache :=
      match cacheKey with
      | some k =>
        if (k != "") && cfg.enabled then get_cached_result cfg now c k
        else (Option.none, c)
      | Option.none => (Option.none, c)
    let fb : FallbackCallResult :=
      match fallbackRes with
      | .ok fallback_result =>
        { result := .ok fallback_result,
          cache := maybe_cache cfg cacheKey now looked.2 fallback_result,
          fallbackInvoked := true }
      | .error fallback_error =>
        { result := .error fallback_error, cache := looked.2, fallbackInvoked := true }
    match looked.1 with
    | some cached => if cached.truthy then
        { result := .ok cached, cache := looked.2, fallbackInvoked := false }
      else fb
    | Option.none => fb

/-! ## MonitoringService (monitoring.py) -/

/-- HealthStatus (metrics mapping omitted: no claim touches it). -/
structure HealthStatus where
  component : String
  status : String
  last_check : ℚ
  message : String := ""
deriving DecidableEq, Repr

/-- SystemMetrics. -/
structure SystemMetrics where
  total_requests : ℕ := 0
  successful_requests : ℕ := 0
  failed_requests : ℕ := 0
  average_response_time : ℚ := 0
deriving DecidableEq, Repr

/-- MonitoringService state: the health map (in insertion order), the system
metrics, and the registered breakers. -/
structure MonitoringService where
  health_checks : List (String × HealthStatus) := []
  system_metrics : SystemMetrics := {}
  circuit_breakers : List CircuitBreaker := []

/-- MonitoringService.record_request (monitoring.py lines 49-64). -/
def record_request (ms : MonitoringService) (success : Bool) (response_time : ℚ) :
    MonitoringService :=
  let m := ms.system_metrics
  let m := { m with total_requests := m.total_requests + 1 }
  let m :=
    if success then { m with successful_requests := m.successful_requests + 1 }
    else { m with failed_requests := m.failed_requests + 1 }
  let m :=
    if m.total_requests = 1 then { m with average_response_time := response_time }
    else { m with average_response_time :=
        (m.average_response_time * ((m.total_requests : ℚ) - 1) + response_time) /
          (m.total_requests : ℚ) }
  { ms with system_metrics := m }

/-- One alert dict produced by get_alerts. -/
structure Alert where
  level : String
  component : String
  message : String
  timestamp : ℚ
deriving DecidableEq, Repr

/-- The component loop of get_alerts (monitoring.py lines 160-174). -/
def health_alerts : List (String × HealthStatus) → List Alert
  | [] => []
  | p :: rest =>
    if p.2.status = "unhealthy" then
      { level := "critical", component := p.1, message := p.2.message,
        timestamp := p.2.last_check } :: health_alerts rest
    else if p.2.status = "degraded" then
      { level := "warning", component := p.1, message := p.2.message,
        timestamp := p.2.last_check } :: health_alerts rest
    else health_alerts rest

/-- The circuit-breaker loop of get_alerts (monitoring.py lines 177-191). -/
def breaker_alerts (now : ℚ) : List CircuitBreaker → List Alert
  | [] => []
  | cb :: rest =>
    if cb.state = CircuitBreakerState.open_ then
      { level := "critical", component := "circuit_breaker_" ++ cb.name,
        message := "Circuit breaker is OPEN - API calls blocked",
        timestamp := now } :: breaker_alerts now rest
    else if cb.state = CircuitBreakerState.half_open then
      { level := "warning", component := "circuit_breaker_" ++ cb.name,
        message := "Circuit breaker is testing recovery",
        timestamp := now } :: breaker_alerts now rest
    else breaker_alerts now rest

/-- The success-rate expression successful_requests / max(1, total_requests)
used by get_alerts and get_system_health. -/
def success_rate (m : SystemMetrics) : ℚ :=
  (m.successful_requests : ℚ) / ((max 1 m.total_requests : ℕ) : ℚ)

/-- The condition of the system-level low-success-rate alert
(monitoring.py line 198). -/
def system_alert_flag (ms : MonitoringService) : Bool :=
  decide (success_rate ms.system_metrics < 9/10) &&
    decide (ms.system_metrics.total_requests > 10)

/-- MonitoringService.get_alerts (monitoring.py lines 155-206); the alerts
list in the order the loops append them. -/
def get_alerts (ms : MonitoringService) (now : ℚ) : List Alert :=
  let alerts := health_alerts ms.health_checks ++ breaker_alerts now ms.circuit_breakers
  if system_alert_flag ms then
    alerts ++ [{ level := "warning", component := "system", message := ".1%", timestamp := now }]
  else alerts

/-! ## Concrete instances used by the witnesses and counterexamples -/

/-- A cache whose fresh entry holds the falsy value 0. -/
def c1Cache : Cache := [("quote", { data := PyValue.int 0, timestamp := 0 })]

/-- A cache whose fresh entry holds the truthy value 42. -/
def c1HitCache : Cache := [("quote", { data := PyValue.int 42, timestamp := 0 })]

/-- An OPEN breaker (default config) whose last failure was at time 0. -/
def c3Breaker : CircuitBreaker :=
  { name := "api", config := {}, state := CircuitBreakerState.open_,
    metrics := { last_failure_time := some 0 } }

/-- A retry config with three attempts and jitter disabled. -/
def c4Config : RetryConfig := { max_attempts := 3, jitter := false }

/-- The retry config of the spec's delay-sequence example. -/
def c5Config : RetryConfig := { jitter := false }

/-- A breaker config under which no exception counts as a failure. -/
def c9Config : CircuitBreakerConfig := { expected_exception := fun _ => false }

/-- A breaker config that opens after a single counted failure. -/
def c10Config : CircuitBreakerConfig := { failure_threshold := 1 }

/-! ## Theorems -/

/-- Claim C1 counterexample: with caching enabled and a fresh cache entry
(age 100, ttl 300) holding the falsy value 0, a failing primary does not get
the cached value back: the wrapper invokes the fallback and returns its
result instead, because the code guards the cached return with `if cached:`,
a truthiness test. -/
theorem with_fallback_falsy_cache_counterexample :
    (with_fallback {} (some "quote") (Except.error "primary down")
        (Except.ok (PyValue.int 7)) c1Cache 100).fallbackInvoked = true ∧
    (with_fallback {} (some "quote") (Except.error "primary down")
        (Except.ok (PyValue.int 7)) c1Cache 100).result = Except.ok (PyValue.int 7) := by
  have h2 : ¬ ((300 : ℚ) < 100) := by norm_num
  constructor <;>
    simp [with_fallback, get_cached_result, lookupCache, c1Cache, maybe_cache,
      cache_result, eraseCache, PyValue.truthy, h2]

/-- Claim C1 (amended): with a cache key and caching enabled, whenever the
primary operation fails and the cache holds an entry for that key whose age
is at most cache_ttl and whose value is truthy, the wrapped call returns that
cached value, leaves the cache unchanged, and never invokes the fallback.
Falsy cached values (None, 0, the empty string, an empty mapping) are
treated as a cache miss by the `if cached:` truthiness test, and the
fallback is invoked instead. -/
theorem with_fallback_truthy_fresh_cache_hit
    (cfg : FallbackConfig) (k : String) (v : PyValue) (ts now : ℚ)
    (e : PyErr) (fallbackRes : Except PyErr PyValue) (c : Cache)
    (henabled : cfg.enabled = true) (hk : k ≠ "")
    (hlook : lookupCache c k = some { data := v, timestamp := ts })
    (hfresh : now - ts ≤ cfg.cache_ttl) (htruthy : v.truthy = true) :
    with_fallback cfg (some k) (Except.error e) fallbackRes c now =
      { result := Except.ok v, cache := c, fallbackInvoked := false } := by
  have hk' : (k != "") = true := by simpa using hk
  simp only [with_fallback, hk', henabled, Bool.and_self, if_true, get_cached_result, hlook,
    if_neg (not_lt.2 hfresh), htruthy, if_pos]

/-- Witness for claim C1 (amended) at a concrete input: an entry of age 100
(ttl 300) holding 42; the call returns 42 without invoking the fallback. -/
theorem with_fallback_truthy_fresh_cache_hit_witness :
    with_fallback {} (some "quote") (Except.error "primary down")
        (Except.ok (PyValue.int 7)) c1HitCache 100 =
      { result := Except.ok (PyValue.int 42), cache := c1HitCache,
        fallbackInvoked := false } :=
  with_fallback_truthy_fresh_cache_hit {} "quote" (PyValue.int 42) 0 100 "primary down"
    (Except.ok (PyValue.int 7)) c1HitCache rfl (by decide)
    (by simp [c1HitCache, lookupCache]) (by norm_num) rfl

/-- Each counted outcome moves the breaker exactly as the spec's transition
table says, from any breaker state. -/
theorem record_outcome_follows_table (b : CircuitBreaker) (o : Outcome) (now : ℚ) :
    followsTransitionTable b o (record_outcome b o now) := by
  cases o with
  | success =>
    unfold followsTransitionTable record_outcome
    refine ⟨?_, ?_, ?_, ?_⟩
    · intro _ ho
      exact absurd ho (by decide)
    · intro hs _
      simp only [record_success]
      split_ifs with h
      · simpa using h.2
      · rw [hs] at h
        simp only [true_and, not_le] at h
        simp [hs]
        omega
    · intro _ ho
      exact absurd ho (by decide)
    · intro hs _
      simp only [record_success]
      split_ifs with h
      · rw [hs] at h
        exact absurd h.1 (by decide)
      · exact ⟨hs, rfl⟩
  | failure =>
    unfold followsTransitionTable record_outcome
    refine ⟨?_, ?_, ?_, ?_⟩
    · intro hs _
      simp only [record_failure]
      split_ifs with h1 h2
      · rw [hs] at h1
        exact absurd h1 (by decide)
      · simpa using h2.2
      · rw [hs] at h2
        simp only [true_and, not_le] at h2
        simp [hs]
        omega
    · intro _ ho
      exact absurd ho (by decide)
    · intro hs _
      simp only [record_failure]
      rw [if_pos hs]
    · intro _ ho
      exact absurd ho (by decide)

/-- Claim C2: for every stream of counted success/failure outcomes applied
to a breaker that starts CLOSED, the transition taken at each step follows
the section 4.1 table: CLOSED to OPEN exactly when consecutive_failures
reaches failure_threshold after a failure; HALF_OPEN to CLOSED exactly when
consecutive_successes reaches success_threshold; HALF_OPEN to OPEN on any
single failure; a success in CLOSED resets consecutive_failures to 0 and
leaves the state CLOSED. -/
theorem circuit_breaker_transitions_follow_table
    (name : String) (cfg : CircuitBreakerConfig) (events : List (Outcome × ℚ))
    (o : Outcome) (now : ℚ) :
    followsTransitionTable (runOutcomes (initBreaker name cfg) events) o
      (record_outcome (runOutcomes (initBreaker name cfg) events) o now) :=
  record_outcome_follows_table (runOutcomes (initBreaker name cfg) events) o now

/-- Claim C3: while the breaker is OPEN with a recorded last failure and the
elapsed time is strictly below recovery_timeout, call raises the distinct
breaker-open error and never invokes the operation; once the elapsed time
reaches recovery_timeout, the guard moves the breaker to HALF_OPEN and the
call invokes the operation exactly once. -/
theorem circuit_breaker_open_gating
    (b : CircuitBreaker) (now t : ℚ) (opResult : Except PyErr PyValue)
    (hstate : b.state = CircuitBreakerState.open_)
    (hlft : b.metrics.last_failure_time = some t) :
    (now - t < b.config.recovery_timeout →
      (call b now opResult).outcome = CallOutcome.breakerOpen ∧
      (call b now opResult).invocations = 0) ∧
    (b.config.recovery_timeout ≤ now - t →
      gate b now = GateResult.proceed { b with state := CircuitBreakerState.half_open } ∧
      (call b now opResult).invocations = 1) := by
  have hres : should_attempt_reset b now = decide (now - t ≥ b.config.recovery_timeout) := by
    simp [should_attempt_reset, hlft]
  constructor
  · intro hlt
    have hfalse : should_attempt_reset b now = false := by
      rw [hres]
      simpa using not_le.2 hlt
    have hg : gate b now = GateResult.reject := by
      simp [gate, hstate, hfalse]
    constructor <;> simp [call, hg]
  · intro hge
    have htrue : should_attempt_reset b now = true := by
      rw [hres]
      simpa using hge
    have hg : gate b now =
        GateResult.proceed { b with state := CircuitBreakerState.half_open } := by
      simp [gate, hstate, htrue]
    refine ⟨hg, ?_⟩
    cases opResult with
    | ok v => simp [call, hg]
    | error e =>
      simp only [call, hg]
      split_ifs <;> rfl

/-- Witness for claim C3: an OPEN breaker whose last failure was at time 0,
called at time 10 with the default 60-second recovery timeout. -/
theorem circuit_breaker_open_gating_witness :
    ((10 : ℚ) - 0 < c3Breaker.config.recovery_timeout →
      (call c3Breaker 10 (Except.ok PyValue.none)).outcome = CallOutcome.breakerOpen ∧
      (call c3Breaker 10 (Except.ok PyValue.none)).invocations = 0) ∧
    (c3Breaker.config.recovery_timeout ≤ (10 : ℚ) - 0 →
      gate c3Breaker 10 =
        GateResult.proceed { c3Breaker with state := CircuitBreakerState.half_open } ∧
      (call c3Breaker 10 (Except.ok PyValue.none)).invocations = 1) :=
  circuit_breaker_open_gating c3Breaker 10 0 (Except.ok PyValue.none) rfl rfl

/-- Claim C8: a call rejected because the breaker is OPEN and the recovery
timeout has not elapsed returns the whole breaker unchanged - state and
every metrics field - and performs no invocation: the rejection does no
bookkeeping at all. -/
theorem open_rejection_preserves_breaker
    (b : CircuitBreaker) (now : ℚ) (opResult : Except PyErr PyValue)
    (hstate : b.state = CircuitBreakerState.open_)
    (hreset : should_attempt_reset b now = false) :
    call b now opResult =
      { outcome := CallOutcome.breakerOpen, breaker := b, invocations := 0 } := by
  have hg : gate b now = GateResult.reject := by
    simp [gate, hstate, hreset]
  simp [call, hg]

/-- Witness for claim C8: the OPEN breaker with last failure at time 0,
rejected at time 10. -/
theorem open_rejection_preserves_breaker_witness :
    call c3Breaker 10 (Except.ok PyValue.none) =
      { outcome := CallOutcome.breakerOpen, breaker := c3Breaker, invocations := 0 } :=
  open_rejection_preserves_breaker c3Breaker 10 (Except.ok PyValue.none) rfl
    (by norm_num [should_attempt_reset, c3Breaker])

/-- When every attempt raises a retryable error, the retry loop runs all the
remaining attempts and ends with the error of the last one. -/
theorem retryAux_all_fail (retryOn : PyErr → Bool) (op : ℕ → Except PyErr PyValue)
    (errs : ℕ → PyErr) (hop : ∀ k, op k = Except.error (errs k))
    (hret : ∀ k, retryOn (errs k) = true) :
    ∀ (r a : ℕ),
      retryAux retryOn op a (r + 1) = (RetryResult.raised (errs (a + r)), r + 1) := by
  intro r
  induction r with
  | zero =>
    intro a
    simp [retryAux, hop, hret]
  | succ n ih =>
    intro a
    have harg : a + 1 + n = a + (n + 1) := by omega
    rw [retryAux, hop a]
    simp only [hret a, if_true]
    rw [if_neg (Nat.succ_ne_zero n), ih (a + 1)]
    simp [harg]

/-- Claim C4: with max_attempts = n at least 1 and an operation that raises a
retryable error on every invocation, execute_with_retry invokes the operation
exactly n times and then re-raises the error of the final attempt unchanged. -/
theorem execute_with_retry_exhausts_attempts (cfg : RetryConfig)
    (op : ℕ → Except PyErr PyValue) (errs : ℕ → PyErr)
    (hmax : 1 ≤ cfg.max_attempts)
    (hop : ∀ k, op k = Except.error (errs k))
    (hret : ∀ k, cfg.retry_on (errs k) = true) :
    execute_with_retry cfg op =
      (RetryResult.raised (errs (cfg.max_attempts - 1)), cfg.max_attempts) := by
  obtain ⟨r, hr⟩ : ∃ r, cfg.max_attempts = r + 1 := ⟨cfg.max_attempts - 1, by omega⟩
  rw [execute_with_retry, hr]
  have h := retryAux_all_fail cfg.retry_on op errs hop hret r 0
  simpa using h

/-- Witness for claim C4: three attempts, the operation always raising the
same retryable error; three invocations and that error re-raised. -/
theorem execute_with_retry_exhausts_attempts_witness :
    execute_with_retry c4Config (fun _ => Except.error "boom") =
      (RetryResult.raised "boom", 3) :=
  execute_with_retry_exhausts_attempts c4Config (fun _ => Except.error "boom")
    (fun _ => "boom") (by decide) (fun _ => rfl) (fun _ => rfl)

/-- Claim C5: with jitter disabled the delay before retrying after attempt k
is min(initial_delay * backoff_factor ^ k, max_delay); the defaults with
jitter off give the nominal sequence 1, 2, 4, 8 over attempts 0..3; with
jitter enabled and a uniform sample within plus or minus 25 percent of the
nominal delay, the result stays within that band and is at least 0. -/
theorem calculate_delay_formula (cfg : RetryConfig) (attempt : ℕ) (jitterSample : ℚ)
    (h0 : 0 ≤ cfg.initial_delay) (h1 : 0 ≤ cfg.backoff_factor) (h2 : 0 ≤ cfg.max_delay) :
    (cfg.jitter = false →
      calculate_delay cfg attempt jitterSample = nominal_delay cfg attempt) ∧
    (cfg.jitter = true →
      |jitterSample| ≤ nominal_delay cfg attempt * (1/4) →
      0 ≤ calculate_delay cfg attempt jitterSample ∧
      nominal_delay cfg attempt * (3/4) ≤ calculate_delay cfg attempt jitterSample ∧
      calculate_delay cfg attempt jitterSample ≤ nominal_delay cfg attempt * (5/4)) ∧
    (calculate_delay c5Config 0 0 = 1 ∧ calculate_delay c5Config 1 0 = 2 ∧
      calculate_delay c5Config 2 0 = 4 ∧ calculate_delay c5Config 3 0 = 8) := by
  have hnom : 0 ≤ nominal_delay cfg attempt :=
    le_min (mul_nonneg h0 (pow_nonneg h1 attempt)) h2
  refine ⟨?_, ?_, ?_, ?_, ?_, ?_⟩
  · intro hj
    simp only [calculate_delay, nominal_delay, hj, Bool.false_eq_true, if_false]
    exact max_eq_right hnom
  · intro hj hjr
    obtain ⟨hl, hr⟩ := abs_le.mp hjr
    have hcd : calculate_delay cfg attempt jitterSample =
        max 0 (nominal_delay cfg attempt + jitterSample) := by
      simp [calculate_delay, nominal_delay, hj]
    have hsum : 0 ≤ nominal_delay cfg attempt + jitterSample := by linarith
    rw [hcd, max_eq_right hsum]
    refine ⟨by linarith, by linarith, by linarith⟩
  · norm_num [calculate_delay, c5Config, min_def, max_def]
  · norm_num [calculate_delay, c5Config, min_def, max_def]
  · norm_num [calculate_delay, c5Config, min_def, max_def]
  · norm_num [calculate_delay, c5Config, min_def, max_def]

/-- Witness for claim C5 at the spec's configuration (jitter disabled) and
attempt 0 with a zero jitter sample. -/
theorem calculate_delay_formula_witness :
    (c5Config.jitter = false →
      calculate_delay c5Config 0 0 = nominal_delay c5Config 0) ∧
    (c5Config.jitter = true →
      |(0 : ℚ)| ≤ nominal_delay c5Config 0 * (1/4) →
      0 ≤ calculate_delay c5Config 0 0 ∧
      nominal_delay c5Config 0 * (3/4) ≤ calculate_delay c5Config 0 0 ∧
      calculate_delay c5Config 0 0 ≤ nominal_delay c5Config 0 * (5/4)) ∧
    (calculate_delay c5Config 0 0 = 1 ∧ calculate_delay c5Config 1 0 = 2 ∧
      calculate_delay c5Config 2 0 = 4 ∧ calculate_delay c5Config 3 0 = 8) :=
  calculate_delay_formula c5Config 0 0 (by norm_num [c5Config]) (by norm_num [c5Config])
    (by norm_num [c5Config])

/-- Claim C6: record_request(success, response_time) adds 1 to
total_requests, adds 1 to successful_requests exactly on success and to
failed_requests otherwise, and updates average_response_time to the exact
running mean (old_avg * (n - 1) + response_time) / n with n the
post-increment total; the spec's two-call example gives total 2,
successful 1, average 3/4. -/
theorem record_request_running_mean :
    (∀ (ms : MonitoringService) (success : Bool) (rt : ℚ),
      (record_request ms success rt).system_metrics.total_requests =
          ms.system_metrics.total_requests + 1 ∧
      (record_request ms success rt).system_metrics.successful_requests =
          ms.system_metrics.successful_requests + (if success then 1 else 0) ∧
      (record_request ms success rt).system_metrics.failed_requests =
          ms.system_metrics.failed_requests + (if success then 0 else 1) ∧
      (record_request ms success rt).system_metrics.average_response_time =
        (ms.system_metrics.average_response_time * (ms.system_metrics.total_requests : ℚ) + rt) /
          ((ms.system_metrics.total_requests : ℚ) + 1)) ∧
    ((record_request (record_request {} true 1) false (1/2)).system_metrics.total_requests
        = 2 ∧
      (record_request (record_request {} true 1) false (1/2)).system_metrics.successful_requests
        = 1 ∧
      (record_request (record_request {} true 1) false (1/2)).system_metrics.average_response_time
        = 3/4) := by
  constructor
  · intro ms success rt
    refine ⟨?_, ?_, ?_, ?_⟩
    · simp only [record_request]
      cases success <;> split_ifs <;> rfl
    · simp only [record_request]
      cases success <;> split_ifs <;> rfl
    · simp only [record_request]
      cases success <;> split_ifs <;> rfl
    · rcases Nat.eq_zero_or_pos ms.system_metrics.total_requests with h0 | hpos
      · cases success <;> simp [record_request, h0]
      · have hne : ms.system_metrics.total_requests + 1 ≠ 1 := by omega
        cases success <;> simp [record_request, hne]
  · refine ⟨?_, ?_, ?_⟩ <;> norm_num [record_request]

/-- A proceeding gate keeps the breaker's config, metrics and name, and never
leaves it in the OPEN state. -/
theorem gate_proceed_state (b : CircuitBreaker) (now : ℚ) (b1 : CircuitBreaker)
    (h : gate b now = GateResult.proceed b1) :
    b1.config = b.config ∧ b1.metrics = b.metrics ∧
      b1.state ≠ CircuitBreakerState.open_ ∧ b1.name = b.name := by
  unfold gate at h
  split_ifs at h with h1 h2
  · injection h with h'
    subst h'
    refine ⟨rfl, rfl, ?_, rfl⟩
    intro hh
    simp at hh
  · injection h with h'
    subst h'
    exact ⟨rfl, rfl, h1, rfl⟩

/-- CircuitBreaker.call never changes the breaker's config. -/
theorem call_config (b : CircuitBreaker) (now : ℚ) (res : Except PyErr PyValue) :
    (call b now res).breaker.config = b.config := by
  cases hg : gate b now with
  | reject => simp [call, hg]
  | proceed b1 =>
    obtain ⟨hc, -, -, -⟩ := gate_proceed_state b now b1 hg
    cases res with
    | ok v =>
      simp only [call, hg, record_success]
      split_ifs <;> simpa using hc
    | error e =>
      simp only [call, hg, record_failure]
      split_ifs <;> simpa using hc

/-- A sequence of calls never changes the breaker's config. -/
theorem runCalls_config (b : CircuitBreaker) (events : List (ℚ × Except PyErr PyValue)) :
    (runCalls b events).config = b.config := by
  induction events generalizing b with
  | nil => rfl
  | cons ev rest ih =>
    obtain ⟨now, res⟩ := ev
    calc (runCalls (call b now res).breaker rest).config
        = (call b now res).breaker.config := ih _
      _ = b.config := call_config b now res

/-- One call preserves successful_calls + failed_calls at most total_calls. -/
theorem call_sum_le (b : CircuitBreaker) (now : ℚ) (res : Except PyErr PyValue)
    (h : b.metrics.successful_calls + b.metrics.failed_calls ≤ b.metrics.total_calls) :
    (call b now res).breaker.metrics.successful_calls +
        (call b now res).breaker.metrics.failed_calls ≤
      (call b now res).breaker.metrics.total_calls := by
  cases hg : gate b now with
  | reject => simpa [call, hg] using h
  | proceed b1 =>
    obtain ⟨-, hm, -, -⟩ := gate_proceed_state b now b1 hg
    cases res with
    | ok v =>
      simp only [call, hg, record_success]
      split_ifs <;> simp [hm] <;> omega
    | error e =>
      simp only [call, hg, record_failure]
      split_ifs <;> simp [hm] <;> omega

/-- Any sequence of calls preserves successful_calls + failed_calls at most
total_calls. -/
theorem runCalls_sum_le (b : CircuitBreaker) (events : List (ℚ × Except PyErr PyValue))
    (h : b.metrics.successful_calls + b.metrics.failed_calls ≤ b.metrics.total_calls) :
    (runCalls b events).metrics.successful_calls +
        (runCalls b events).metrics.failed_calls ≤
      (runCalls b events).metrics.total_calls := by
  induction events generalizing b with
  | nil => exact h
  | cons ev rest ih =>
    obtain ⟨now, res⟩ := ev
    exact ih _ (call_sum_le b now res h)

/-- A call whose operation raises an error that expected_exception does not
match increments only total_calls: the error propagates, no success or
failure is recorded, the consecutive counters stay, and the breaker does not
end up OPEN. -/
theorem call_unexpected_effects (b : CircuitBreaker) (now : ℚ) (e : PyErr)
    (hsum : b.metrics.successful_calls + b.metrics.failed_calls ≤ b.metrics.total_calls)
    (hune : b.config.expected_exception e = false)
    (hinv : (call b now (Except.error e)).invocations = 1) :
    (call b now (Except.error e)).breaker.metrics.successful_calls +
        (call b now (Except.error e)).breaker.metrics.failed_calls <
      (call b now (Except.error e)).breaker.metrics.total_calls ∧
    (call b now (Except.error e)).outcome = CallOutcome.raised e ∧
    (call b now (Except.error e)).breaker.metrics.consecutive_failures =
      b.metrics.consecutive_failures ∧
    (call b now (Except.error e)).breaker.metrics.consecutive_successes =
      b.metrics.consecutive_successes ∧
    (call b now (Except.error e)).breaker.state ≠ CircuitBreakerState.open_ := by
  cases hg : gate b now with
  | reject => simp [call, hg] at hinv
  | proceed b1 =>
    obtain ⟨hc, hm, hno, -⟩ := gate_proceed_state b now b1 hg
    have hune1 : b1.config.expected_exception e = false := by rw [hc]; exact hune
    simp only [call, hg, hune1, Bool.false_eq_true, if_false]
    refine ⟨?_, ?_, ?_, ?_, ?_⟩
    · simp [hm]
      omega
    · trivial
    · simp [hm]
    · simp [hm]
    · simpa using hno

/-- Claim C9: after any sequence of calls on a fresh breaker,
successful_calls + failed_calls is at most total_calls; and a further call
whose operation raises an error not matched by expected_exception makes the
inequality strict: the error is raised to the caller, recorded as neither
success nor failure, the consecutive counters are unchanged, and the breaker
is not OPEN afterwards. -/
theorem call_metrics_inequality_invariant (name : String) (cfg : CircuitBreakerConfig)
    (events : List (ℚ × Except PyErr PyValue)) (now : ℚ) (e : PyErr)
    (hune : cfg.expected_exception e = false) :
    ((runCalls (initBreaker name cfg) events).metrics.successful_calls +
        (runCalls (initBreaker name cfg) events).metrics.failed_calls ≤
      (runCalls (initBreaker name cfg) events).metrics.total_calls) ∧
    ((call (runCalls (initBreaker name cfg) events) now (Except.error e)).invocations = 1 →
      (call (runCalls (initBreaker name cfg) events) now
            (Except.error e)).breaker.metrics.successful_calls +
          (call (runCalls (initBreaker name cfg) events) now
            (Except.error e)).breaker.metrics.failed_calls <
        (call (runCalls (initBreaker name cfg) events) now
          (Except.error e)).breaker.metrics.total_calls ∧
      (call (runCalls (initBreaker name cfg) events) now (Except.error e)).outcome =
        CallOutcome.raised e ∧
      (call (runCalls (initBreaker name cfg) events) now
          (Except.error e)).breaker.metrics.consecutive_failures =
        (runCalls (initBreaker name cfg) events).metrics.consecutive_failures ∧
      (call (runCalls (initBreaker name cfg) events) now
          (Except.error e)).breaker.metrics.consecutive_successes =
        (runCalls (initBreaker name cfg) events).metrics.consecutive_successes ∧
      (call (runCalls (initBreaker name cfg) events) now (Except.error e)).breaker.state ≠
        CircuitBreakerState.open_) := by
  have hA := runCalls_sum_le (initBreaker name cfg) events (by simp [initBreaker])
  refine ⟨hA, fun hinv => ?_⟩
  have hcfg : (runCalls (initBreaker name cfg) events).config = cfg :=
    runCalls_config (initBreaker name cfg) events
  exact call_unexpected_effects (runCalls (initBreaker name cfg) events) now e hA
    (by rw [hcfg]; exact hune) hinv

/-- Witness for claim C9: a fresh breaker that counts no exception as a
failure, hit by one unmatched error at time 0. -/
theorem call_metrics_inequality_invariant_witness :
    ((runCalls (initBreaker "api" c9Config) []).metrics.successful_calls +
        (runCalls (initBreaker "api" c9Config) []).metrics.failed_calls ≤
      (runCalls (initBreaker "api" c9Config) []).metrics.total_calls) ∧
    ((call (runCalls (initBreaker "api" c9Config) []) 0 (Except.error "weird")).invocations
        = 1 →
      (call (runCalls (initBreaker "api" c9Config) []) 0
            (Except.error "weird")).breaker.metrics.successful_calls +
          (call (runCalls (initBreaker "api" c9Config) []) 0
            (Except.error "weird")).breaker.metrics.failed_calls <
        (call (runCalls (initBreaker "api" c9Config) []) 0
          (Except.error "weird")).breaker.metrics.total_calls ∧
      (call (runCalls (initBreaker "api" c9Config) []) 0 (Except.error "weird")).outcome =
        CallOutcome.raised "weird" ∧
      (call (runCalls (initBreaker "api" c9Config) []) 0
          (Except.error "weird")).breaker.metrics.consecutive_failures =
        (runCalls (initBreaker "api" c9Config) []).metrics.consecutive_failures ∧
      (call (runCalls (initBreaker "api" c9Config) []) 0
          (Except.error "weird")).breaker.metrics.consecutive_successes =
        (runCalls (initBreaker "api" c9Config) []).metrics.consecutive_successes ∧
      (call (runCalls (initBreaker "api" c9Config) []) 0 (Except.error "weird")).breaker.state
          ≠ CircuitBreakerState.open_) :=
  call_metrics_inequality_invariant "api" c9Config [] 0 "weird" rfl

/-- One call preserves the invariant that an OPEN breaker has a recorded
last failure time. -/
theorem call_open_lft (b : CircuitBreaker) (now : ℚ) (res : Except PyErr PyValue)
    (h : b.state = CircuitBreakerState.open_ →
      ∃ t, b.metrics.last_failure_time = some t) :
    (call b now res).breaker.state = CircuitBreakerState.open_ →
      ∃ t, (call b now res).breaker.metrics.last_failure_time = some t := by
  cases hg : gate b now with
  | reject => simpa [call, hg] using h
  | proceed b1 =>
    obtain ⟨-, hm, hno, -⟩ := gate_proceed_state b now b1 hg
    cases res with
    | ok v =>
      intro hst
      exfalso
      revert hst
      simp only [call, hg, record_success]
      split_ifs <;> simp <;> exact hno
    | error e =>
      simp only [call, hg]
      split_ifs with he
      · intro _
        refine ⟨now, ?_⟩
        simp only [record_failure]
        split_ifs <;> rfl
      · intro hst
        exact absurd (by simpa using hst) hno

/-- Any sequence of calls preserves the invariant that an OPEN breaker has a
recorded last failure time. -/
theorem runCalls_open_lft (b : CircuitBreaker) (events : List (ℚ × Except PyErr PyValue))
    (h : b.state = CircuitBreakerState.open_ →
      ∃ t, b.metrics.last_failure_time = some t) :
    (runCalls b events).state = CircuitBreakerState.open_ →
      ∃ t, (runCalls b events).metrics.last_failure_time = some t := by
  induction events generalizing b with
  | nil => exact h
  | cons ev rest ih =>
    obtain ⟨now, res⟩ := ev
    exact ih _ (call_open_lft b now res h)

/-- Claim C10: every breaker reachable from the initial CLOSED state by call
invocations that is OPEN has last_failure_time set (every transition into
OPEN happens inside _record_failure, which sets it); consequently
_should_attempt_reset on such a breaker always takes the elapsed-time
comparison, never the branch that returns True for a missing failure time. -/
theorem open_state_has_failure_time (name : String) (cfg : CircuitBreakerConfig)
    (events : List (ℚ × Except PyErr PyValue))
    (hopen : (runCalls (initBreaker name cfg) events).state = CircuitBreakerState.open_) :
    ∃ t, (runCalls (initBreaker name cfg) events).metrics.last_failure_time = some t ∧
      ∀ now, should_attempt_reset (runCalls (initBreaker name cfg) events) now =
        decide (now - t ≥ (runCalls (initBreaker name cfg) events).config.recovery_timeout) := by
  obtain ⟨t, ht⟩ := runCalls_open_lft (initBreaker name cfg) events
    (fun h => nomatch h) hopen
  exact ⟨t, ht, fun now => by simp [should_attempt_reset, ht]⟩

/-- Witness for claim C10: a breaker with failure_threshold 1 opened by a
single failing call at time 0. -/
theorem open_state_has_failure_time_witness :
    ∃ t, (runCalls (initBreaker "api" c10Config)
        [((0 : ℚ), Except.error "boom")]).metrics.last_failure_time = some t ∧
      ∀ now, should_attempt_reset
          (runCalls (initBreaker "api" c10Config) [((0 : ℚ), Except.error "boom")]) now =
        decide (now - t ≥ (runCalls (initBreaker "api" c10Config)
          [((0 : ℚ), Except.error "boom")]).config.recovery_timeout) :=
  open_state_has_failure_time "api" c10Config [((0 : ℚ), Except.error "boom")]
    (by simp [runCalls, call, gate, initBreaker, record_failure, c10Config])

/-- The component loop contributes one critical alert exactly per entry with
the given component name and status unhealthy. -/
theorem health_alerts_countP_crit (hc : List (String × HealthStatus)) (c : String) :
    (health_alerts hc).countP
        (fun a => decide (a.component = c) && decide (a.level = "critical")) =
      hc.countP (fun p => decide (p.1 = c) && decide (p.2.status = "unhealthy")) := by
  induction hc with
  | nil => rfl
  | cons p rest ih =>
    simp only [health_alerts]
    split_ifs with h1 h2
    · simp [List.countP_cons, ih, h1]
    · simp [List.countP_cons, ih, h1, h2]
    · simp [List.countP_cons, ih, h1, h2]

/-- The component loop contributes one warning alert exactly per entry with
the given component name and status degraded. -/
theorem health_alerts_countP_warn (hc : List (String × HealthStatus)) (c : String) :
    (health_alerts hc).countP
        (fun a => decide (a.component = c) && decide (a.level = "warning")) =
      hc.countP (fun p => decide (p.1 = c) && decide (p.2.status = "degraded")) := by
  induction hc with
  | nil => rfl
  | cons p rest ih =>
    simp only [health_alerts]
    split_ifs with h1 h2
    · simp [List.countP_cons, ih, h1]
    · simp [List.countP_cons, ih, h1, h2]
    · simp [List.countP_cons, ih, h1, h2]

/-- The component loop produces exactly one alert per unhealthy or degraded
entry and nothing else. -/
theorem health_alerts_length (hc : List (String × HealthStatus)) :
    (health_alerts hc).length =
      hc.countP (fun p =>
        decide (p.2.status = "unhealthy") || decide (p.2.status = "degraded")) := by
  induction hc with
  | nil => rfl
  | cons p rest ih =>
    simp only [health_alerts]
    split_ifs with h1 h2
    · simp [List.countP_cons, ih, h1]
    · simp [List.countP_cons, ih, h1, h2]
    · simp [List.countP_cons, ih, h1, h2]

/-- The breaker loop contributes one critical alert exactly per OPEN breaker
with the given alert component name. -/
theorem breaker_alerts_countP_crit (cbs : List CircuitBreaker) (now : ℚ) (c : String) :
    (breaker_alerts now cbs).countP
        (fun a => decide (a.component = c) && decide (a.level = "critical")) =
      cbs.countP (fun cb => decide ("circuit_breaker_" ++ cb.name = c) &&
        decide (cb.state = CircuitBreakerState.open_)) := by
  induction cbs with
  | nil => rfl
  | cons cb rest ih =>
    simp only [breaker_alerts]
    split_ifs with h1 h2
    · simp [List.countP_cons, ih, h1]
    · simp [List.countP_cons, ih, h1, h2]
    · simp [List.countP_cons, ih, h1, h2]

/-- The breaker loop contributes one warning alert exactly per HALF_OPEN
breaker with the given alert component name. -/
theorem breaker_alerts_countP_warn (cbs : List CircuitBreaker) (now : ℚ) (c : String) :
    (breaker_alerts now cbs).countP
        (fun a => decide (a.component = c) && decide (a.level = "warning")) =
      cbs.countP (fun cb => decide ("circuit_breaker_" ++ cb.name = c) &&
        decide (cb.state = CircuitBreakerState.half_open)) := by
  induction cbs with
  | nil => rfl
  | cons cb rest ih =>
    simp only [breaker_alerts]
    split_ifs with h1 h2
    · simp [List.countP_cons, ih, h1]
    · simp [List.countP_cons, ih, h1, h2]
    · simp [List.countP_cons, ih, h1, h2]

/-- The breaker loop produces exactly one alert per OPEN or HALF_OPEN
breaker and nothing else. -/
theorem breaker_alerts_length (cbs : List CircuitBreaker) (now : ℚ) :
    (breaker_alerts now cbs).length =
      cbs.countP (fun cb => decide (cb.state = CircuitBreakerState.open_) ||
        decide (cb.state = CircuitBreakerState.half_open)) := by
  induction cbs with
  | nil => rfl
  | cons cb rest ih =>
    simp only [breaker_alerts]
    split_ifs with h1 h2
    · simp [List.countP_cons, ih, h1]
    · simp [List.countP_cons, ih, h1, h2]
    · simp [List.countP_cons, ih, h1, h2]

/-- get_alerts normalized: the component alerts, then the breaker alerts,
then the optional system-level low-success-rate warning. -/
theorem get_alerts_eq (ms : MonitoringService) (now : ℚ) :
    get_alerts ms now =
      health_alerts ms.health_checks ++ breaker_alerts now ms.circuit_breakers ++
        (if system_alert_flag ms then
          [{ level := "warning", component := "system", message := ".1%", timestamp := now }]
        else []) := by
  unfold get_alerts
  split_ifs <;> simp

/-- Claim C7: for every component name, get_alerts returns exactly one
critical alert per health entry with that name and status unhealthy plus one
per OPEN breaker whose alert component is that name; exactly one warning
alert per degraded health entry and per HALF_OPEN breaker so named, plus one
warning with component "system" exactly when total_requests exceeds 10 and
successful_requests / max(1, total_requests) is below 0.90; and the total
number of alerts is exactly the sum of these contributions - no other
alerts. -/
theorem get_alerts_exact_counts (ms : MonitoringService) (now : ℚ) (c : String) :
    ((get_alerts ms now).countP (fun a => decide (a.component = c ∧ a.level = "critical")) =
      ms.health_checks.countP (fun p => decide (p.1 = c ∧ p.2.status = "unhealthy")) +
        ms.circuit_breakers.countP (fun cb =>
          decide ("circuit_breaker_" ++ cb.name = c ∧
            cb.state = CircuitBreakerState.open_))) ∧
    ((get_alerts ms now).countP (fun a => decide (a.component = c ∧ a.level = "warning")) =
      ms.health_checks.countP (fun p => decide (p.1 = c ∧ p.2.status = "degraded")) +
        ms.circuit_breakers.countP (fun cb =>
          decide ("circuit_breaker_" ++ cb.name = c ∧
            cb.state = CircuitBreakerState.half_open)) +
        (if c = "system" ∧ system_alert_flag ms then 1 else 0)) ∧
    ((get_alerts ms now).length =
      ms.health_checks.countP (fun p =>
          decide (p.2.status = "unhealthy" ∨ p.2.status = "degraded")) +
        ms.circuit_breakers.countP (fun cb =>
          decide (cb.state = CircuitBreakerState.open_ ∨
            cb.state = CircuitBreakerState.half_open)) +
        (if system_alert_flag ms then 1 else 0)) := by
  refine ⟨?_, ?_, ?_⟩
  · rw [get_alerts_eq]
    simp only [List.countP_append, Bool.decide_and]
    rw [health_alerts_countP_crit, breaker_alerts_countP_crit]
    by_cases hf : system_alert_flag ms = true <;> simp [hf, List.countP_cons]
  · rw [get_alerts_eq]
    simp only [List.countP_append, Bool.decide_and]
    rw [health_alerts_countP_warn, breaker_alerts_countP_warn]
    by_cases hf : system_alert_flag ms = true
    · by_cases hc : c = "system"
      · subst hc
        simp [hf, List.countP_cons]
      · have hcs : "system" ≠ c := fun hh => hc hh.symm
        simp [hf, hc, hcs, List.countP_cons]
    · simp [hf]
  · rw [get_alerts_eq]
    simp only [List.length_append, Bool.decide_or]
    rw [health_alerts_length, breaker_alerts_length]
    by_cases hf : system_alert_flag ms = true <;> simp [hf]
